import Mathlib

/-!
Verification development for a small DSL front-end (tokenizer +
recursive-descent parser + AST serializer) for arcade-game configuration
files.  The definitions below are a shallow embedding of the Python
sources `Analizador.py` (GameLexer, Parser, AST node classes),
`main.py` (TetrisLexer) and `LexerSnake.py` (SnakeLexer).

Modelling conventions:
* Python strings are Lean `String`; scanning works on `String.data`.
* Python's regex-based master pattern is embedded as a priority-ordered
  matcher (`gameStep` / `tetrisStep` / `snakeStep`): at each position the
  first alternative that matches wins, and each alternative is greedy,
  exactly like `re.finditer` over the alternation used by the sources.
* Python `float(...)` values are represented as exact rationals
  (`PyLit.float : Rat`); no claim below depends on IEEE-754 rounding,
  only on the int-versus-float distinction the code makes.
* Exceptions are represented by `Except`: `RuntimeError` /
  `NameError` of the raising lexers and `ParserError` of the parser
  become the `.error` branch.  The parser's error branch carries the
  parser state so that the accumulated diagnostics list is preserved.
* Parser recursion is fueled.  Fuel exhaustion produces a distinguished
  diagnostic (`fuelOutMsg`), which never corresponds to a program
  behavior; the concrete theorems below list the exact diagnostics
  produced, so fuel exhaustion cannot silently stand in for an abort.
-/

/-- The single-quote character, used when building the diagnostic texts. -/
def sglq : String := String.mk [Char.ofNat 39]

/-- The `{` character. -/
def lbraceChar : Char := Char.ofNat 123

/-- The `}` character. -/
def rbraceChar : Char := Char.ofNat 125

/-- Python `str.upper()` for the ASCII strings used as keywords. -/
def pyUpper (s : String) : String := String.mk (s.data.map Char.toUpper)

/-- Python `str.isupper()`: at least one cased character and no
lowercase cased character. -/
def pyIsUpper (s : String) : Bool :=
  s.data.any (fun c => c.isUpper || c.isLower) && s.data.all (fun c => !c.isLower)

/-- Python `str.strip(quote)`: remove every leading and trailing `"`. -/
def pyStripQuotes (s : String) : String :=
  let l := s.data.dropWhile (fun c => c = '"')
  String.mk ((l.reverse.dropWhile (fun c => c = '"')).reverse)

/-- Decimal value of a digit run, as Python `int(...)` computes it. -/
def digitsToNat (l : List Char) : Nat :=
  l.foldl (fun a c => a * 10 + (c.toNat - 48)) 0

/-- Python `int(lexeme)` on a `NUMBER` lexeme without a decimal point. -/
def intOfLexeme (s : String) : Int := Int.ofNat (digitsToNat s.data)

/-- Python `float(lexeme)` on a `NUMBER` lexeme with a decimal point,
represented exactly (see the module comment). -/
def floatOfLexeme (s : String) : Rat :=
  let ip := s.data.takeWhile (fun c => c ≠ '.')
  let fp := s.data.drop (ip.length + 1)
  (digitsToNat ip : Rat) + (digitsToNat fp : Rat) / (10 : Rat) ^ fp.length

/-- `collections.namedtuple('Token', ['type', 'lexeme', 'line', 'col'])`
as used by `Analizador.py` and `main.py` (string lexemes). -/
structure Token where
  type : String
  lexeme : String
  line : Nat
  col : Nat
deriving DecidableEq, Repr

/-- The dynamic literal payloads produced by the front-end:
Python int / float / str / bool. -/
inductive PyLit where
  | int : Int → PyLit
  | float : Rat → PyLit
  | str : String → PyLit
  | bool : Bool → PyLit
deriving DecidableEq, Repr

/-- `SnakeLexer` stores converted payloads (int/float/str/bool) in the
`lexeme` slot of its namedtuple, so its tokens get their own type. -/
structure SToken where
  type : String
  lexeme : PyLit
  line : Nat
  col : Nat
deriving DecidableEq, Repr

/-- The alternatives of the master regex, in their priority order. -/
inductive MKind where
  | NUMBER | STRING | BOOLEAN | ID
  | LBRACE | RBRACE | LBRACKET | RBRACKET | LPAREN | RPAREN
  | EQUAL | COMMA | SEMICOLON | COLON
  | COMMENT | NEWLINE | SKIP | MISMATCH
deriving DecidableEq, Repr

/-- Kind name of a non-`ID` alternative, as emitted in `Token.type`. -/
def MKind.name : MKind → String
  | .NUMBER => "NUMBER"
  | .STRING => "STRING"
  | .BOOLEAN => "BOOLEAN"
  | .ID => "ID"
  | .LBRACE => "LBRACE"
  | .RBRACE => "RBRACE"
  | .LBRACKET => "LBRACKET"
  | .RBRACKET => "RBRACKET"
  | .LPAREN => "LPAREN"
  | .RPAREN => "RPAREN"
  | .EQUAL => "EQUAL"
  | .COMMA => "COMMA"
  | .SEMICOLON => "SEMICOLON"
  | .COLON => "COLON"
  | .COMMENT => "COMMENT"
  | .NEWLINE => "NEWLINE"
  | .SKIP => "SKIP"
  | .MISMATCH => "MISMATCH"

/-- Characters of Python's `\w` (`[A-Za-z0-9_]`) for the ASCII inputs
the DSL uses. -/
def isWordChar (c : Char) : Bool := c.isAlphanum || c = '_'

/-- First character of the `ID` pattern `[A-Za-z_][A-Za-z0-9_]*`. -/
def isIdStart (c : Char) : Bool := c.isAlpha || c = '_'

/-- The word-boundary `\b` before the match position: position 0 or a
non-word character before it. -/
def boundaryBefore : Option Char → Bool
  | none => true
  | some p => !isWordChar p

/-- Backtracking matcher for the string-literal body of
`"(\\.|[^"])*"`: given the characters after the opening quote, return
the content consumed by the starred group together with the characters
after the closing quote, trying (in the engine's order) the escape
alternative `\\.`, then the class `[^"]`, then closing the literal. -/
def strMatch : List Char → Option (List Char × List Char)
  | [] => none
  | c :: rest =>
    let aOpt : Option (List Char × List Char) :=
      match c, rest with
      | '\\', d :: rest2 =>
        if d = '\n' then none
        else
          match strMatch rest2 with
          | some (content, r) => some ('\\' :: d :: content, r)
          | none => none
      | _, _ => none
    match aOpt with
    | some res => some res
    | none =>
      if c = '"' then some ([], rest)
      else
        match strMatch rest with
        | some (content, r) => some (c :: content, r)
        | none => none

/-- The extra characters consumed after a leading digit by
`\d+(\.\d+)?`. -/
def numberExtra (rest : List Char) : List Char :=
  let ds := rest.takeWhile Char.isDigit
  let after := rest.drop ds.length
  match after with
  | '.' :: d :: _ =>
    if d.isDigit then ds ++ '.' :: (after.drop 1).takeWhile Char.isDigit
    else ds
  | _ => ds

/-- `\b(true|false)\b` at the scan position: `c` is the current
character, `rest` the remainder, `prev` the character before the
match.  Returns the characters consumed after `c` when the alternative
matches. -/
def boolMatch (prev : Option Char) (c : Char) (rest : List Char) : Option (List Char) :=
  if boundaryBefore prev then
    match c, rest with
    | 't', 'r' :: 'u' :: 'e' :: tl =>
      match tl with
      | [] => some ['r', 'u', 'e']
      | x :: _ => if isWordChar x then none else some ['r', 'u', 'e']
    | 'f', 'a' :: 'l' :: 's' :: 'e' :: tl =>
      match tl with
      | [] => some ['a', 'l', 's', 'e']
      | x :: _ => if isWordChar x then none else some ['a', 'l', 's', 'e']
    | _, _ => none
  else none

/-- One step of `GameLexer`'s master pattern
(`NUMBER | STRING | BOOLEAN | ID | punctuation | COMMENT | NEWLINE |
SKIP | MISMATCH`): the winning alternative and the extra characters it
consumes after `c`. -/
def gameStep (prev : Option Char) (c : Char) (rest : List Char) : MKind × List Char :=
  if c.isDigit then (.NUMBER, numberExtra rest)
  else if c = '"' then
    match strMatch rest with
    | some (content, _) => (.STRING, content ++ ['"'])
    | none => (.MISMATCH, [])
  else
    match boolMatch prev c rest with
    | some extra => (.BOOLEAN, extra)
    | none =>
      if isIdStart c then (.ID, rest.takeWhile isWordChar)
      else if c = lbraceChar then (.LBRACE, [])
      else if c = rbraceChar then (.RBRACE, [])
      else if c = '[' then (.LBRACKET, [])
      else if c = ']' then (.RBRACKET, [])
      else if c = '(' then (.LPAREN, [])
      else if c = ')' then (.RPAREN, [])
      else if c = '=' then (.EQUAL, [])
      else if c = ',' then (.COMMA, [])
      else if c = ';' then (.SEMICOLON, [])
      else if c = ':' then (.COLON, [])
      else if c = '#' then (.COMMENT, rest.takeWhile (fun x => x ≠ '\n'))
      else if c = '\n' then (.NEWLINE, [])
      else if c = ' ' ∨ c = '\t' then (.SKIP, rest.takeWhile (fun x => x = ' ' ∨ x = '\t'))
      else (.MISMATCH, [])

/-- Marker for fuel exhaustion of a scan loop; never a behavior of the
Python code — each step consumes at least one character and the
`tokenize` wrappers supply one unit of fuel per character, so this
branch is unreachable there. -/
def fuelMark : String := "<<lexer fuel exhausted: not a program behavior>>"

namespace GameLexer

/-- The keyword set of `GameLexer.__init__` (a Python set literal;
the duplicated spellings collapse). -/
def keywords : List String :=
  ["juego", "game", "tablero", "piezas", "puntos", "velocidad", "controles", "perdiste",
   "filas", "columnas", "fondo", "inicio_lleno", "color", "rotaciones",
   "random", "true", "false",
   "pieza_inicial", "pieza_siguiente", "ganar_puntos", "eliminar_fila",
   "velocidad_progresiva", "aumentar_velocidad", "cada_puntos", "cantidad_aumento",
   "izquierda", "derecha", "caida", "rotar", "pausar",
   "I", "O", "T", "L", "J", "S", "Z",
   "serpiente", "comida", "paredes", "reglas", "assets", "title", "author", "version",
   "velocidad_cps", "largo_inicial", "crecimiento_por_comida", "posicion_inicial",
   "direccion_inicial", "max_activa", "items", "tipo", "valor_puntos", "respawn_ms",
   "evitar_sobre_serpiente", "evitar_paredes", "usar_paredes", "lista",
   "colision_pared", "colision_cuerpo", "salir_tablero", "wrap_edges", "tick_ms",
   "bonus_longitud_activo", "bonus_longitud_cada_segmentos", "bonus_longitud_valor",
   "velocidad_inicial_cps", "factor_aumento", "limite_cps",
   "arriba", "abajo", "cabeza", "pared", "simbolos", "charset"]

/-- Token kind emitted for a winning alternative: an `ID` whose lexeme
is a keyword is reclassified as the uppercased keyword. -/
def kindOf (k : MKind) (lex : String) : String :=
  match k with
  | .ID => if keywords.contains lex then pyUpper lex else "ID"
  | _ => k.name

/-- The lexical diagnostic of `GameLexer.tokenize`. -/
def errMsg (lex : String) (line col : Nat) : String :=
  "⚠️ Error léxico: carácter inesperado " ++ sglq ++ lex ++ sglq ++
    " en línea " ++ toString line ++ ", col " ++ toString col

/-- The `finditer` loop of `GameLexer.tokenize`: emitted tokens,
collected lexical errors, and the final `line_num` / `col` values used
for the `EOF` token.  The `Nat` argument is structural fuel, one unit
per consumed character. -/
def scan : Nat → List Char → Option Char → Nat → Nat → Nat → Nat →
    List Token × List String × Nat × Nat
  | _, [], _, _, line, _, col => ([], [], line, col)
  | 0, _ :: _, _, _, line, _, col => ([], [fuelMark], line, col)
  | fuel + 1, c :: rest, prev, off, line, lineStart, _col =>
    let (k, extra) := gameStep prev c rest
    let lex : List Char := c :: extra
    let len := 1 + extra.length
    let ncol := off - lineStart + 1
    let rest' := rest.drop extra.length
    let prev' : Option Char := some (extra.getLastD c)
    match k with
    | .NEWLINE => scan fuel rest' prev' (off + len) (line + 1) (off + len) ncol
    | .SKIP => scan fuel rest' prev' (off + len) line lineStart ncol
    | .COMMENT => scan fuel rest' prev' (off + len) line lineStart ncol
    | .MISMATCH =>
      let (ts, es, fl, fc) := scan fuel rest' prev' (off + len) line lineStart ncol
      (ts, errMsg (String.mk lex) line ncol :: es, fl, fc)
    | _ =>
      let (ts, es, fl, fc) := scan fuel rest' prev' (off + len) line lineStart ncol
      (⟨kindOf k (String.mk lex), String.mk lex, line, ncol⟩ :: ts, es, fl, fc)

/-- `GameLexer.tokenize`: never raises; collects lexical diagnostics
and always appends the terminal `EOF` token built from the loop's final
`line_num` and (stale) `col` variables. -/
def tokenize (s : String) : List Token × List String :=
  let (ts, es, l, c) := scan s.data.length s.data none 0 1 0 1
  (ts ++ [⟨"EOF", "", l, c⟩], es)

end GameLexer

/-- One step of `TetrisLexer`'s master pattern (`main.py`): same
alternatives as `GameLexer` except that `;` and `:` have no pattern of
their own (they fall through to `MISMATCH`). -/
def tetrisStep (prev : Option Char) (c : Char) (rest : List Char) : MKind × List Char :=
  if c.isDigit then (.NUMBER, numberExtra rest)
  else if c = '"' then
    match strMatch rest with
    | some (content, _) => (.STRING, content ++ ['"'])
    | none => (.MISMATCH, [])
  else
    match boolMatch prev c rest with
    | some extra => (.BOOLEAN, extra)
    | none =>
      if isIdStart c then (.ID, rest.takeWhile isWordChar)
      else if c = lbraceChar then (.LBRACE, [])
      else if c = rbraceChar then (.RBRACE, [])
      else if c = '[' then (.LBRACKET, [])
      else if c = ']' then (.RBRACKET, [])
      else if c = '(' then (.LPAREN, [])
      else if c = ')' then (.RPAREN, [])
      else if c = '=' then (.EQUAL, [])
      else if c = ',' then (.COMMA, [])
      else if c = '\n' then (.NEWLINE, [])
      else if c = ' ' ∨ c = '\t' then (.SKIP, rest.takeWhile (fun x => x = ' ' ∨ x = '\t'))
      else if c = '#' then (.COMMENT, rest.takeWhile (fun x => x ≠ '\n'))
      else (.MISMATCH, [])

namespace TetrisLexer

/-- The keyword set of `TetrisLexer.__init__`. -/
def keywords : List String :=
  ["juego", "tablero", "piezas", "rotaciones",
   "perdiste", "eliminacion_filas", "puntos",
   "velocidad", "controles", "random"]

/-- Keyword reclassification of `TetrisLexer.tokenize`. -/
def kindOf (k : MKind) (lex : String) : String :=
  match k with
  | .ID => if keywords.contains lex then pyUpper lex else "ID"
  | _ => k.name

/-- The `RuntimeError` message raised on a `MISMATCH` character
(`%r` rendered as the character between single quotes). -/
def errMsg (lex : String) (line : Nat) : String :=
  "Caracter inesperado " ++ sglq ++ lex ++ sglq ++ " en línea " ++ toString line

/-- The `finditer` loop of `TetrisLexer.tokenize`.  `col` starts out
unassigned (`none`): `main.py` never initializes it before the loop.
The `Nat` argument is structural fuel, one unit per consumed
character (see `fuelMark`). -/
def scan : Nat → List Char → Option Char → Nat → Nat → Nat → Option Nat →
    Except String (List Token × Nat × Option Nat)
  | _, [], _, _, line, _, col => .ok ([], line, col)
  | 0, _ :: _, _, _, _, _, _ => .error fuelMark
  | fuel + 1, c :: rest, prev, off, line, lineStart, _col =>
    let (k, extra) := tetrisStep prev c rest
    let lex : List Char := c :: extra
    let len := 1 + extra.length
    let ncol := off - lineStart + 1
    let rest' := rest.drop extra.length
    let prev' : Option Char := some (extra.getLastD c)
    match k with
    | .NEWLINE => scan fuel rest' prev' (off + len) (line + 1) (off + len) (some ncol)
    | .SKIP => scan fuel rest' prev' (off + len) line lineStart (some ncol)
    | .COMMENT => scan fuel rest' prev' (off + len) line lineStart (some ncol)
    | .MISMATCH => .error (errMsg (String.mk lex) line)
    | _ =>
      match scan fuel rest' prev' (off + len) line lineStart (some ncol) with
      | .error e => .error e
      | .ok (ts, fl, fc) =>
        .ok (⟨kindOf k (String.mk lex), String.mk lex, line, ncol⟩ :: ts, fl, fc)

/-- `TetrisLexer.tokenize`: raises `RuntimeError` on a mismatched
character; after the loop it reads `col`, which on an empty source was
never assigned, so Python raises a `NameError` before the `EOF` token
can be appended. -/
def tokenize (s : String) : Except String (List Token) :=
  match scan s.data.length s.data none 0 1 0 none with
  | .error e => .error e
  | .ok (ts, l, colFinal) =>
    match colFinal with
    | none => .error ("NameError: local variable " ++ sglq ++ "col" ++ sglq ++
        " referenced before assignment")
    | some c => .ok (ts ++ [⟨"EOF", "", l, c⟩])

end TetrisLexer

/-- One step of `SnakeLexer`'s master pattern (`LexerSnake.py`):
strings have no escapes and may not span lines, `\r` counts as
whitespace, comments start with `//` or `#`, and `;` scans as `SEMI`. -/
def snakeStep (prev : Option Char) (c : Char) (rest : List Char) : MKind × List Char :=
  if c.isDigit then (.NUMBER, numberExtra rest)
  else if c = '"' then
    let content := rest.takeWhile (fun x => x ≠ '"' ∧ x ≠ '\r' ∧ x ≠ '\n')
    match rest.drop content.length with
    | '"' :: _ => (.STRING, content ++ ['"'])
    | _ => (.MISMATCH, [])
  else
    match boolMatch prev c rest with
    | some extra => (.BOOLEAN, extra)
    | none =>
      if isIdStart c then (.ID, rest.takeWhile isWordChar)
      else if c = lbraceChar then (.LBRACE, [])
      else if c = rbraceChar then (.RBRACE, [])
      else if c = '[' then (.LBRACKET, [])
      else if c = ']' then (.RBRACKET, [])
      else if c = '(' then (.LPAREN, [])
      else if c = ')' then (.RPAREN, [])
      else if c = '=' then (.EQUAL, [])
      else if c = ':' then (.COLON, [])
      else if c = ',' then (.COMMA, [])
      else if c = ';' then (.SEMICOLON, [])
      else if c = '\n' then (.NEWLINE, [])
      else if c = ' ' ∨ c = '\t' ∨ c = '\r' then
        (.SKIP, rest.takeWhile (fun x => x = ' ' ∨ x = '\t' ∨ x = '\r'))
      else if c = '/' then
        match rest with
        | '/' :: tl => (.COMMENT, '/' :: tl.takeWhile (fun x => x ≠ '\n'))
        | _ => (.MISMATCH, [])
      else if c = '#' then (.COMMENT, rest.takeWhile (fun x => x ≠ '\n'))
      else (.MISMATCH, [])

namespace SnakeLexer

/-- The keyword set of `SnakeLexer.__init__`. -/
def keywords : List String :=
  ["game", "juego", "title", "author", "version",
   "tablero", "serpiente", "comida", "paredes", "perdiste",
   "reglas", "puntos", "velocidad", "controles", "hud",
   "assets", "audio", "movimientos_permitidos", "niveles",
   "filas", "columnas", "fondo", "celda_px", "inicio_lleno", "bordes_solidos",
   "velocidad_cps", "largo_inicial", "crecimiento_por_comida",
   "color", "posicion_inicial", "direccion_inicial", "x", "y",
   "colores_segmentos", "cola_elastica",
   "max_activa", "items", "tipo", "valor_puntos", "respawn_ms",
   "evitar_sobre_serpiente", "evitar_paredes",
   "usar_paredes", "lista",
   "colision_pared", "colision_cuerpo", "salir_tablero", "tiempo_agotado",
   "wrap_edges", "tick_ms", "pausa_permitida",
   "puntos_iniciales", "ganar_puntos", "perder_puntos",
   "bonus_longitud_activo", "bonus_longitud_cada_segmentos", "bonus_longitud_valor",
   "combo_tiempo_activo", "combo_tiempo_ventana_ms", "combo_tiempo_bonus",
   "multiplicadores", "racha_sin_choques_activo", "racha_umbral", "racha_factor",
   "velocidad_inicial_cps", "velocidad_progresiva",
   "aumentar_velocidad", "cada_puntos", "factor_aumento", "limite_cps",
   "control", "mantener_tick_constante", "input_buffer_ms",
   "id", "objetivo_puntos", "cps_min", "cps_max", "paredes_extra",
   "arriba", "abajo", "izquierda", "derecha", "pausar", "reiniciar",
   "mostrar_puntaje", "mostrar_velocidad", "mostrar_nivel", "posiciones",
   "puntaje_x", "puntaje_y", "velocidad_x", "velocidad_y", "nivel_x", "nivel_y",
   "charset", "simbolos", "cabeza", "pared", "paleta",
   "verde", "verde_oscuro", "rojo", "amarillo", "morado", "negro", "blanco",
   "habilitado", "sonidos", "comer", "chocar", "subir_nivel", "volumen_global"]

/-- The `RuntimeError` message raised on a `MISMATCH` character. -/
def errMsg (lex : String) (line col : Nat) : String :=
  "Caracter inesperado " ++ sglq ++ lex ++ sglq ++ " en línea " ++ toString line ++
    ", col " ++ toString col

/-- The token `SnakeLexer.tokenize` emits for a winning alternative:
payload conversion happens here (quotes stripped from strings, numbers
parsed, booleans normalized under the `BOOL` kind, `game`/`juego`
unified as `GAME`). -/
def emit (k : MKind) (lex : String) (line col : Nat) : SToken :=
  match k with
  | .STRING => ⟨"STRING", .str (String.mk ((lex.data.drop 1).dropLast)), line, col⟩
  | .NUMBER =>
    if lex.data.contains '.' then ⟨"NUMBER", .float (floatOfLexeme lex), line, col⟩
    else ⟨"NUMBER", .int (intOfLexeme lex), line, col⟩
  | .BOOLEAN => ⟨"BOOL", .bool (lex = "true"), line, col⟩
  | .ID =>
    if lex = "game" ∨ lex = "juego" then ⟨"GAME", .str lex, line, col⟩
    else if keywords.contains lex then ⟨pyUpper lex, .str lex, line, col⟩
    else ⟨"ID", .str lex, line, col⟩
  | .SEMICOLON => ⟨"SEMI", .str lex, line, col⟩
  | _ => ⟨k.name, .str lex, line, col⟩

/-- The `finditer` loop of `SnakeLexer.tokenize`.  The `Nat` argument
is structural fuel, one unit per consumed character (see `fuelMark`). -/
def scan : Nat → List Char → Option Char → Nat → Nat → Nat → Nat →
    Except String (List SToken × Nat × Nat)
  | _, [], _, _, line, _, col => .ok ([], line, col)
  | 0, _ :: _, _, _, _, _, _ => .error fuelMark
  | fuel + 1, c :: rest, prev, off, line, lineStart, _col =>
    let (k, extra) := snakeStep prev c rest
    let lex : List Char := c :: extra
    let len := 1 + extra.length
    let ncol := off - lineStart + 1
    let rest' := rest.drop extra.length
    let prev' : Option Char := some (extra.getLastD c)
    match k with
    | .NEWLINE => scan fuel rest' prev' (off + len) (line + 1) (off + len) ncol
    | .SKIP => scan fuel rest' prev' (off + len) line lineStart ncol
    | .COMMENT => scan fuel rest' prev' (off + len) line lineStart ncol
    | .MISMATCH => .error (errMsg (String.mk lex) line ncol)
    | _ =>
      match scan fuel rest' prev' (off + len) line lineStart ncol with
      | .error e => .error e
      | .ok (ts, fl, fc) => .ok (emit k (String.mk lex) line ncol :: ts, fl, fc)

/-- `SnakeLexer.tokenize`: raises on a mismatched character, appends
the terminal `EOF` token otherwise (`col` initialized to 1 here, unlike
`main.py`). -/
def tokenize (s : String) : Except String (List SToken) :=
  match scan s.data.length s.data none 0 1 0 1 with
  | .error e => .error e
  | .ok (ts, l, c) => .ok (ts ++ [⟨"EOF", .str "", l, c⟩])

end SnakeLexer

/-- The AST node classes of `Analizador.py` as one tagged union:
`GameNode`, `BlockNode`, `AssignNode`, `ListNode`, `ObjectNode`,
`FunctionNode`, `ValueNode`.  `ObjectNode` is deliberately kept as a
variant even though the Python class does *not* inherit from `Node`;
that non-inheritance is modelled in the serializer below. -/
inductive Node where
  | game (name : Option String) (body : Node)
  | block (name : String) (statements : List Node)
  | assign (key : String) (value : Node)
  | list (items : List Node)
  | object (pairs : List (String × Node))
  | func (name : String) (args : List Node)
  | value (v : PyLit)
deriving Repr

/-- Parser state: the token list, the position index and the
accumulated `errors` list of the `Parser` object. -/
structure PState where
  tokens : List Token
  pos : Nat
  errors : List String
deriving Repr

namespace Parser

/-- `self.current_token`: the token at `pos`, or `None` past the end. -/
def current (st : PState) : Option Token := st.tokens.get? st.pos

/-- `Parser.advance`. -/
def advance (st : PState) : PState := { st with pos := st.pos + 1 }

/-- `Parser.peek`. -/
def peek (st : PState) : Option Token := st.tokens.get? (st.pos + 1)

/-- Append a diagnostic to `self.errors`. -/
def pushError (st : PState) (e : String) : PState :=
  { st with errors := st.errors ++ [e] }

/-- Diagnostic of `Parser.expect` at end of input. -/
def msgExpectEnd (tt : String) : String :=
  "❌ Error sintáctico: se esperaba " ++ sglq ++ tt ++ sglq ++ " pero se llegó al final"

/-- Diagnostic of `Parser.expect` on a mismatched token. -/
def msgExpectFound (line col : Nat) (tt lex : String) : String :=
  "❌ Error sintáctico en línea " ++ toString line ++ ", col " ++ toString col ++
    ": se esperaba " ++ sglq ++ tt ++ sglq ++ " pero se encontró " ++ sglq ++ lex ++ sglq

/-- Diagnostic of `Parser.parse_game` on a missing root keyword. -/
def msgRoot : String :=
  "❌ El archivo debe comenzar con " ++ sglq ++ "game" ++ sglq ++ " o " ++
    sglq ++ "juego" ++ sglq

/-- Recoverable diagnostic of `Parser.parse_block` when a key is not
followed by `=` or `{`. -/
def msgKeyErr (key : String) (line col : Nat) : String :=
  "⚠️ Error sintáctico: se esperaba " ++ sglq ++ "=" ++ sglq ++ " o " ++
    sglq ++ "\x7b" ++ sglq ++ " después de " ++ sglq ++ key ++ sglq ++
    " (línea " ++ toString line ++ ", col " ++ toString col ++ ")"

/-- Diagnostic of `Parser.parse_value` at end of input. -/
def msgValueEnd : String := "⚠️ Valor inesperado: fin de entrada"

/-- Recoverable diagnostic of `Parser.parse_value` on an unexpected
token kind (dead code for lexer-produced kinds, see `pyIsUpper`). -/
def msgValueUnexpected (lex : String) (line col : Nat) : String :=
  "⚠️ Valor inesperado " ++ sglq ++ lex ++ sglq ++ " en línea " ++ toString line ++
    ", col " ++ toString col

/-- Fatal diagnostic of `Parser.parse_function` when the token stream
runs out inside an argument list. -/
def msgUnclosed (name : String) : String :=
  "❌ Error sintáctico: paréntesis no cerrado en llamada a " ++ sglq ++ name ++ sglq

/-- Marker for fuel exhaustion of the embedding; never a behavior of
the Python code (see the module comment). -/
def fuelOutMsg : String := "<<fuel exhausted: not a program behavior>>"

/-- Marker for the places where the Python code would dereference
`None` (an `AttributeError`, not a `ParserError`); reachable only on
token lists no lexer produces. -/
def msgNoneCrash : String := "<<AttributeError: NoneType dereference>>"

/-- `Parser.expect(token_type)`. -/
def expect (tt : String) (st : PState) : Except PState PState :=
  match current st with
  | none => .error (pushError st (msgExpectEnd tt))
  | some t =>
    if t.type = tt then .ok (advance st)
    else .error (pushError st (msgExpectFound t.line t.col tt t.lexeme))

/-- Optional consumption of one token of kind `tt` (the `SEMICOLON`
and `COMMA` steps of the block/list/object/argument loops). -/
def skipOpt (tt : String) (st : PState) : PState :=
  match current st with
  | some t => if t.type = tt then advance st else st
  | none => st

mutual

/-- `Parser.parse_value`. -/
def parse_value (fuel : Nat) (st : PState) : Except PState (Node × PState) :=
  match fuel with
  | 0 => .error (pushError st fuelOutMsg)
  | fuel + 1 =>
    match current st with
    | none => .error (pushError st msgValueEnd)
    | some t =>
      if t.type = "NUMBER" then
        .ok (.value (if t.lexeme.data.contains '.' then .float (floatOfLexeme t.lexeme)
                     else .int (intOfLexeme t.lexeme)), advance st)
      else if t.type = "STRING" then
        .ok (.value (.str (pyStripQuotes t.lexeme)), advance st)
      else if t.type = "BOOLEAN" then
        .ok (.value (.bool (t.lexeme = "true")), advance st)
      else if t.type = "LBRACKET" then parse_list fuel st
      else if t.type = "LBRACE" then parse_object fuel st
      else if t.type = "ID" ∨ pyIsUpper t.type = true then
        match peek st with
        | some p =>
          if p.type = "LPAREN" then parse_function fuel st
          else .ok (.value (.str t.lexeme), advance st)
        | none => .ok (.value (.str t.lexeme), advance st)
      else
        .ok (.value (.str t.lexeme),
             advance (pushError st (msgValueUnexpected t.lexeme t.line t.col)))

/-- `Parser.parse_list`. -/
def parse_list (fuel : Nat) (st : PState) : Except PState (Node × PState) :=
  match fuel with
  | 0 => .error (pushError st fuelOutMsg)
  | fuel + 1 =>
    match expect "LBRACKET" st with
    | .error e => .error e
    | .ok st1 =>
      match list_items fuel st1 with
      | .error e => .error e
      | .ok (items, st2) =>
        match expect "RBRACKET" st2 with
        | .error e => .error e
        | .ok st3 => .ok (.list items, st3)

/-- The element loop of `Parser.parse_list`. -/
def list_items (fuel : Nat) (st : PState) : Except PState (List Node × PState) :=
  match fuel with
  | 0 => .error (pushError st fuelOutMsg)
  | fuel + 1 =>
    match current st with
    | none => .ok ([], st)
    | some t =>
      if t.type = "RBRACKET" then .ok ([], st)
      else
        match parse_value fuel st with
        | .error e => .error e
        | .ok (v, st1) =>
          match list_items fuel (skipOpt "COMMA" st1) with
          | .error e => .error e
          | .ok (vs, st2) => .ok (v :: vs, st2)

/-- `Parser.parse_object`. -/
def parse_object (fuel : Nat) (st : PState) : Except PState (Node × PState) :=
  match fuel with
  | 0 => .error (pushError st fuelOutMsg)
  | fuel + 1 =>
    match expect "LBRACE" st with
    | .error e => .error e
    | .ok st1 =>
      match object_pairs fuel st1 with
      | .error e => .error e
      | .ok (pairs, st2) =>
        match expect "RBRACE" st2 with
        | .error e => .error e
        | .ok st3 => .ok (.object pairs, st3)

/-- The pair loop of `Parser.parse_object`: the key lexeme is read
first, then `expect('ID')` and `expect(':')` may abort fatally. -/
def object_pairs (fuel : Nat) (st : PState) : Except PState (List (String × Node) × PState) :=
  match fuel with
  | 0 => .error (pushError st fuelOutMsg)
  | fuel + 1 =>
    match current st with
    | none => .ok ([], st)
    | some t =>
      if t.type = "RBRACE" then .ok ([], st)
      else
        match expect "ID" st with
        | .error e => .error e
        | .ok st1 =>
          match expect "COLON" st1 with
          | .error e => .error e
          | .ok st2 =>
            match parse_value fuel st2 with
            | .error e => .error e
            | .ok (v, st3) =>
              match object_pairs fuel (skipOpt "COMMA" st3) with
              | .error e => .error e
              | .ok (ps, st4) => .ok ((t.lexeme, v) :: ps, st4)

/-- `Parser.parse_function`. -/
def parse_function (fuel : Nat) (st : PState) : Except PState (Node × PState) :=
  match fuel with
  | 0 => .error (pushError st fuelOutMsg)
  | fuel + 1 =>
    match current st with
    | none => .error (pushError st msgNoneCrash)
    | some t =>
      match expect "LPAREN" (advance st) with
      | .error e => .error e
      | .ok st1 =>
        match fun_args fuel t.lexeme st1 with
        | .error e => .error e
        | .ok (args, st2) =>
          match expect "RPAREN" st2 with
          | .error e => .error e
          | .ok st3 => .ok (.func t.lexeme args, st3)

/-- The argument loop of `Parser.parse_function`: after each argument
(and optional comma) the loop checks for end of input and raises the
"unclosed parenthesis" diagnostic. -/
def fun_args (fuel : Nat) (name : String) (st : PState) :
    Except PState (List Node × PState) :=
  match fuel with
  | 0 => .error (pushError st fuelOutMsg)
  | fuel + 1 =>
    match current st with
    | none => .ok ([], st)
    | some t =>
      if t.type = "RPAREN" then .ok ([], st)
      else
        match parse_value fuel st with
        | .error e => .error e
        | .ok (v, st1) =>
          let st2 := skipOpt "COMMA" st1
          match current st2 with
          | none => .error (pushError st2 (msgUnclosed name))
          | some _ =>
            match fun_args fuel name st2 with
            | .error e => .error e
            | .ok (vs, st3) => .ok (v :: vs, st3)

/-- The statement loop of `Parser.parse_block`, returning the
statements list of the `BlockNode` (always created under the name
`"block"`, renamed by the caller for nested sections). -/
def parse_block (fuel : Nat) (st : PState) : Except PState (List Node × PState) :=
  match fuel with
  | 0 => .error (pushError st fuelOutMsg)
  | fuel + 1 =>
    match current st with
    | none => .ok ([], st)
    | some t =>
      if t.type = "RBRACE" ∨ t.type = "EOF" then .ok ([], st)
      else if t.type = "ID" ∨ pyIsUpper t.type = true then
        let st1 := advance st
        match current st1 with
        | some t2 =>
          if t2.type = "EQUAL" then
            match parse_value fuel (advance st1) with
            | .error e => .error e
            | .ok (v, st2) =>
              match parse_block fuel (skipOpt "SEMICOLON" st2) with
              | .error e => .error e
              | .ok (rest, st3) => .ok (.assign t.lexeme v :: rest, st3)
          else if t2.type = "LBRACE" then
            match parse_block fuel (advance st1) with
            | .error e => .error e
            | .ok (stmts, st2) =>
              match expect "RBRACE" st2 with
              | .error e => .error e
              | .ok st3 =>
                match parse_block fuel st3 with
                | .error e => .error e
                | .ok (rest, st4) => .ok (.block t.lexeme stmts :: rest, st4)
          else
            parse_block fuel (advance (pushError st1 (msgKeyErr t.lexeme t2.line t2.col)))
        | none => .error (pushError st1 msgNoneCrash)
      else
        parse_block fuel (advance st)

end

/-- The optional root name of `Parser.parse_game` (quoted string or
bare identifier; quotes stripped). -/
def game_name (st : PState) : Option String × PState :=
  match current st with
  | some t =>
    if t.type = "STRING" ∨ t.type = "ID" then (some (pyStripQuotes t.lexeme), advance st)
    else (none, st)
  | none => (none, st)

/-- `Parser.parse_game`. -/
def parse_game (fuel : Nat) (st : PState) : Except PState (Node × PState) :=
  match current st with
  | none => .error (pushError st msgNoneCrash)
  | some t =>
    if t.type = "GAME" ∨ t.type = "JUEGO" then
      let (name, st2) := game_name (advance st)
      match expect "LBRACE" st2 with
      | .error e => .error e
      | .ok st3 =>
        match parse_block fuel st3 with
        | .error e => .error e
        | .ok (stmts, st4) =>
          match expect "RBRACE" st4 with
          | .error e => .error e
          | .ok st5 => .ok (.game name (.block "block" stmts), st5)
    else .error (pushError st msgRoot)

/-- `Parser.parse`: run `parse_game`, catch `ParserError` as a null
AST; the diagnostics list survives either way. -/
def parse (ts : List Token) : Option Node × List String :=
  match parse_game (4 * ts.length + 16) { tokens := ts, pos := 0, errors := [] } with
  | .ok (g, st) => (some g, st.errors)
  | .error st => (none, st.errors)

end Parser

/-- The full `Analizador.py` pipeline: tokenize with `GameLexer`, then
parse.  Result: ((AST option, syntax diagnostics), lexical diagnostics). -/
def parseProgram (s : String) : (Option Node × List String) × List String :=
  let (ts, lexErrs) := GameLexer.tokenize s
  (Parser.parse ts, lexErrs)

/-- The plain nested structures produced by `to_dict` (what
`json.dumps` receives): scalars, `None`, sequences, string-keyed
insertion-ordered maps — and `raw`, an attribute value that the
reflection left as an unconverted Python object.  `Node.to_dict` keeps
a field that is neither a `list` nor an `isinstance(..., Node)` value
as it is; since `ObjectNode` does not inherit from `Node`, a nested
`ObjectNode` lands in the output unconverted. -/
inductive PyJson where
  | int : Int → PyJson
  | float : Rat → PyJson
  | str : String → PyJson
  | bool : Bool → PyJson
  | none : PyJson
  | list : List PyJson → PyJson
  | dict : List (String × PyJson) → PyJson
  | raw : Node → PyJson
deriving Repr

/-- A `ValueNode.value` payload in the serialized output. -/
def litJson : PyLit → PyJson
  | .int i => .int i
  | .float q => .float q
  | .str s => .str s
  | .bool b => .bool b

/-- A `GameNode.name` payload (string or Python `None`). -/
def optJson : Option String → PyJson
  | some s => .str s
  | none => .none

mutual

/-- `Node.to_dict` (the reflection over `self.__dict__`, written out
per variant: `type` entry first, then the fields in their constructor
assignment order) and `ObjectNode.to_dict` (the flat pair map). -/
def toDict : Node → PyJson
  | .game name body =>
    .dict [("type", .str "GameNode"), ("name", optJson name), ("body", childJson body)]
  | .block name stmts =>
    .dict [("type", .str "BlockNode"), ("name", .str name),
           ("statements", .list (childList stmts))]
  | .assign key v =>
    .dict [("type", .str "AssignNode"), ("key", .str key), ("value", childJson v)]
  | .list items =>
    .dict [("type", .str "ListNode"), ("items", .list (childList items))]
  | .object pairs => .dict (pairDicts pairs)
  | .func name args =>
    .dict [("type", .str "FunctionNode"), ("name", .str name),
           ("args", .list (childList args))]
  | .value v => .dict [("type", .str "ValueNode"), ("value", litJson v)]

/-- How `Node.to_dict` converts an attribute (or sequence element)
that holds a child: `isinstance(v, Node)` recurses; an `ObjectNode` is
not a `Node`, so it stays unconverted (`raw`). -/
def childJson : Node → PyJson
  | .object pairs => .raw (.object pairs)
  | .game name body => toDict (.game name body)
  | .block name stmts => toDict (.block name stmts)
  | .assign key v => toDict (.assign key v)
  | .list items => toDict (.list items)
  | .func name args => toDict (.func name args)
  | .value v => toDict (.value v)

/-- Element-wise conversion of a sequence-valued attribute. -/
def childList : List Node → List PyJson
  | [] => []
  | n :: rest => childJson n :: childList rest

/-- `ObjectNode.to_dict` pair conversion: it tests `hasattr(v,
'to_dict')`, which every node class (including `ObjectNode` itself)
satisfies, so here the recursion does enter nested objects. -/
def pairDicts : List (String × Node) → List (String × PyJson)
  | [] => []
  | (k, v) :: rest => (k, toDict v) :: pairDicts rest

end

/-- Shape of a `NUMBER` lexeme, `\d+(\.\d+)?`: used as a hypothesis
wherever `int(...)` / `float(...)` totality matters. -/
def isNumberLexeme (s : String) : Bool :=
  let ds := s.data.takeWhile Char.isDigit
  let rest := s.data.drop ds.length
  !ds.isEmpty &&
    (rest.isEmpty ||
      (match rest with
       | '.' :: fs => !fs.isEmpty && fs.all Char.isDigit
       | _ => false))

mutual

/-- Modelled from the spec (the serialization rules of §4.3, as
restated by claim C9): every tagged node becomes a map with a `type`
entry plus one entry per field, sequence-valued fields map
element-wise *recursing into child nodes*, and an `Object` serializes
as a flat key-to-value map.  This is the comparison definition for the
refinement; the code's actual behavior is `toDict`. -/
def specToDict : Node → PyJson
  | .game name body =>
    .dict [("type", .str "GameNode"), ("name", optJson name), ("body", specToDict body)]
  | .block name stmts =>
    .dict [("type", .str "BlockNode"), ("name", .str name),
           ("statements", .list (specList stmts))]
  | .assign key v =>
    .dict [("type", .str "AssignNode"), ("key", .str key), ("value", specToDict v)]
  | .list items =>
    .dict [("type", .str "ListNode"), ("items", .list (specList items))]
  | .object pairs => .dict (specPairs pairs)
  | .func name args =>
    .dict [("type", .str "FunctionNode"), ("name", .str name),
           ("args", .list (specList args))]
  | .value v => .dict [("type", .str "ValueNode"), ("value", litJson v)]

/-- Element-wise serialization of the spec description. -/
def specList : List Node → List PyJson
  | [] => []
  | n :: rest => specToDict n :: specList rest

/-- Flat pair serialization of the spec description. -/
def specPairs : List (String × Node) → List (String × PyJson)
  | [] => []
  | (k, v) :: rest => (k, specToDict v) :: specPairs rest

end

/-!  ## Helper lemmas -/

/-- `List.all` transfers along `List.contains`. -/
theorem all_of_contains {α : Type} [BEq α] [LawfulBEq α]
    (l : List α) (p : α → Bool) (x : α)
    (hall : l.all p = true) (hx : l.contains x = true) : p x = true := by
  have hmem : x ∈ l := by
    simpa [List.contains] using hx
  exact List.all_eq_true.mp hall x hmem

/-- Every `GameLexer` keyword uppercases to an `isupper()` string that
is not `"EOF"`. -/
theorem GameLexer.keyword_upper (lex : String)
    (h : GameLexer.keywords.contains lex = true) :
    pyIsUpper (pyUpper lex) = true ∧ pyUpper lex ≠ "EOF" := by
  have hall : GameLexer.keywords.all
      (fun w => pyIsUpper (pyUpper w) && (pyUpper w != "EOF")) = true := by decide
  have := all_of_contains _ _ _ hall h
  simp only [Bool.and_eq_true, bne_iff_ne, ne_eq] at this
  exact ⟨this.1, this.2⟩

/-- Every token kind `GameLexer.tokenize` can emit passes the parser's
key-shape test (`type == 'ID' or type.isupper()`) and is never the
kind `"EOF"` reserved for the terminal token. -/
theorem GameLexer.kindOf_prop (k : MKind) (lex : String) :
    (GameLexer.kindOf k lex = "ID" ∨ pyIsUpper (GameLexer.kindOf k lex) = true) ∧
      GameLexer.kindOf k lex ≠ "EOF" := by
  cases k <;> simp only [GameLexer.kindOf, MKind.name] <;>
    try exact ⟨Or.inr (by decide), by decide⟩
  cases hcont : GameLexer.keywords.contains lex
  · simp only [hcont, Bool.false_eq_true, if_false]
    exact ⟨Or.inl trivial, by decide⟩
  · have hk := GameLexer.keyword_upper lex hcont
    simp only [hcont, if_true]
    exact ⟨Or.inr hk.1, hk.2⟩

/-- Every token the `finditer` loop of `GameLexer.tokenize` emits has a
kind that passes the key-shape test and is not `"EOF"`. -/
theorem GameLexer.scan_types :
    ∀ (fuel : Nat) (cs : List Char) (prev : Option Char) (off line ls col : Nat),
      ∀ t ∈ (GameLexer.scan fuel cs prev off line ls col).1,
        (t.type = "ID" ∨ pyIsUpper t.type = true) ∧ t.type ≠ "EOF" := by
  intro fuel
  induction fuel with
  | zero =>
    intro cs prev off line ls col t ht
    match cs with
    | [] => simp [GameLexer.scan] at ht
    | c :: rest => simp [GameLexer.scan] at ht
  | succ n ih =>
    intro cs prev off line ls col t ht
    match cs with
    | [] => simp [GameLexer.scan] at ht
    | c :: rest =>
      rw [GameLexer.scan] at ht
      rcases hstep : gameStep prev c rest with ⟨k, extra⟩
      rw [hstep] at ht
      simp only at ht
      cases k <;> simp only at ht <;>
        first
        | exact ih _ _ _ _ _ _ t ht
        | (rcases hsc : GameLexer.scan n (rest.drop extra.length)
              (some (extra.getLastD c)) (off + (1 + extra.length)) line ls
              (off - ls + 1) with ⟨ts, es, fl, fc⟩
           rw [hsc] at ht
           simp only [List.mem_cons] at ht
           rcases ht with rfl | ht
           · dsimp only
             exact GameLexer.kindOf_prop _ _
           · have := ih _ _ _ _ _ _ t (by rw [hsc]; exact ht)
             exact this)

/-!  ## Claim theorems -/

/-- C1 (counterexample): on `game g { size = [1,2,3] colors: red }`
the parser does *not* return a non-null Game AST with exactly one
recoverable diagnostic.  It records two recoverable diagnostics (the
recovery after `colors` consumes only the `:`, so `red` is misread as
another key, and that second recovery consumes the closing brace),
then `expect('RBRACE')` fails fatally: the result is a null AST with
three diagnostics. -/
theorem C1_counterexample :
    parseProgram "game g \x7b size = [1,2,3] colors: red \x7d" =
      ((none,
        [Parser.msgKeyErr "colors" 1 31,
         Parser.msgKeyErr "red" 1 37,
         Parser.msgExpectFound 1 37 "RBRACE" ""]), []) := rfl

/-- C1 (amended): the bracketed value does parse as a `List` of the
integers 1, 2, 3 (shown by running `parse_value` at the `[` token),
and `colors: red` does raise a recoverable diagnostic — but recovery
advances one token at a time, so `red` is then misread as a key, a
second recoverable diagnostic is recorded and the closing `}` is
consumed; the subsequent `expect('RBRACE')` aborts fatally and `parse`
returns a null AST instead of a Game. -/
theorem C1_amended :
    Parser.parse_value 40
        ⟨(GameLexer.tokenize "game g \x7b size = [1,2,3] colors: red \x7d").1, 5, []⟩ =
      .ok (.list [.value (.int 1), .value (.int 2), .value (.int 3)],
           ⟨(GameLexer.tokenize "game g \x7b size = [1,2,3] colors: red \x7d").1, 12, []⟩) ∧
    parseProgram "game g \x7b size = [1,2,3] colors: red \x7d" =
      ((none,
        [Parser.msgKeyErr "colors" 1 31,
         Parser.msgKeyErr "red" 1 37,
         Parser.msgExpectFound 1 37 "RBRACE" ""]), []) := ⟨rfl, rfl⟩

/-- C2 (counterexample): a `COMMA` token met while scanning a block is
not silently skipped.  Python's `type.isupper()` is true for the kind
string `"COMMA"`, so the token is taken as a statement *key*; since
the next token `}` is neither `=` nor an opening brace, a diagnostic
naming `,` is recorded — and the recovery then eats the `}`, making
the whole parse fail. -/
theorem C2_counterexample :
    parseProgram "game g \x7b , \x7d" =
      ((none,
        [Parser.msgKeyErr "," 1 12,
         Parser.msgExpectFound 1 12 "RBRACE" ""]), []) := rfl

/-- C2 (amended): every token kind `GameLexer.tokenize` produces is
`"ID"` or satisfies Python's `isupper()` — all kind names are
uppercase — so every token scanned in a block passes the key-shape
test `type == 'ID' or type.isupper()` and the silent-skip `else`
branch of `parse_block` is unreachable on lexer output; a stray token
such as `,` is instead treated as a key and (when `=` / `{` does not
follow) records a recoverable diagnostic, as the conjoined concrete
run shows. -/
theorem C2_thm :
    (∀ (s : String), ∀ t ∈ (GameLexer.tokenize s).1,
        t.type = "ID" ∨ pyIsUpper t.type = true) ∧
    parseProgram "game g \x7b , \x7d" =
      ((none,
        [Parser.msgKeyErr "," 1 12,
         Parser.msgExpectFound 1 12 "RBRACE" ""]), []) := by
  constructor
  · intro s t ht
    unfold GameLexer.tokenize at ht
    rcases hsc : GameLexer.scan s.data.length s.data none 0 1 0 1 with ⟨ts, es, l, c⟩
    rw [hsc] at ht
    simp only [List.mem_append, List.mem_singleton] at ht
    rcases ht with ht | rfl
    · exact (GameLexer.scan_types s.data.length s.data none 0 1 0 1 t
        (by rw [hsc]; exact ht)).1
    · exact Or.inr (by decide : pyIsUpper "EOF" = true)
  · rfl

/-- C2 (witness): the `COMMA` token of the concrete run above passes
the key-shape test. -/
theorem C2_witness :
    (Token.mk "COMMA" "," 1 10).type = "ID" ∨
      pyIsUpper (Token.mk "COMMA" "," 1 10).type = true :=
  C2_thm.1 "game g \x7b , \x7d" ⟨"COMMA", ",", 1, 10⟩ (by decide)

/-- C3 (counterexample): `tokenize` does not return normally on every
source string, and the `EOF` position is not the end-of-scan position.
`TetrisLexer.tokenize` on the empty string raises — its `col` variable
is only assigned inside the match loop — and `GameLexer.tokenize` on
`"ab"` emits the `EOF` token with column 1 (the start column of the
last match) even though the end-of-scan column is 3. -/
theorem C3_counterexample :
    TetrisLexer.tokenize "" =
      .error ("NameError: local variable " ++ sglq ++ "col" ++ sglq ++
        " referenced before assignment") ∧
    (GameLexer.tokenize "ab").1 =
      [Token.mk "ID" "ab" 1 1, Token.mk "EOF" "" 1 1] ∧
    (1 : Nat) ≠ "ab".length + 1 :=
  ⟨rfl, rfl, by decide⟩

/-- C3 (amended): the error-collecting `GameLexer.tokenize` does
return normally on every source string, including the empty one, and
its result always ends in a terminal token of kind `EOF` with empty
lexeme, no other token having that kind; the `EOF` token's line is the
final line counter but its column is the (1-based) start column of the
last match, not the end-of-scan column — and the raising lexers
(`TetrisLexer`, `SnakeLexer`) do not return normally on all inputs. -/
theorem C3_thm :
    ∀ s : String, ∃ pre l c,
      (GameLexer.tokenize s).1 = pre ++ [Token.mk "EOF" "" l c] ∧
      ∀ t ∈ pre, t.type ≠ "EOF" := by
  intro s
  unfold GameLexer.tokenize
  rcases hsc : GameLexer.scan s.data.length s.data none 0 1 0 1 with ⟨ts, es, l, c⟩
  refine ⟨ts, l, c, rfl, ?_⟩
  intro t ht
  exact (GameLexer.scan_types s.data.length s.data none 0 1 0 1 t
    (by rw [hsc]; exact ht)).2

/-- C3 (witness): the amended statement at the concrete source
`"ab"`. -/
theorem C3_witness :
    ∃ pre l c,
      (GameLexer.tokenize "ab").1 = pre ++ [Token.mk "EOF" "" l c] ∧
      ∀ t ∈ pre, t.type ≠ "EOF" :=
  C3_thm "ab"

/-- C4 (counterexample): `GameLexer.tokenize` does *not* strip the
quotes from a string literal's token payload: the emitted `STRING`
token for `"hi"` carries the raw quoted lexeme. -/
theorem C4_counterexample :
    (GameLexer.tokenize "\"hi\"").1 =
      [Token.mk "STRING" "\"hi\"" 1 1, Token.mk "EOF" "" 1 1] ∧
    ("\"hi\"" : String) ≠ "hi" :=
  ⟨rfl, by decide⟩

/-- C4 (amended): only `SnakeLexer` strips the enclosing quotes when
emitting the `STRING` token (`lexeme[1:-1]`); `GameLexer` keeps the
raw quoted lexeme in the token, and the quotes are stripped later, at
value-construction time in `Parser.parse_value`, as the full-pipeline
run shows. -/
theorem C4_thm :
    SnakeLexer.tokenize "\"hi\"" =
      .ok [SToken.mk "STRING" (.str "hi") 1 1, SToken.mk "EOF" (.str "") 1 1] ∧
    (GameLexer.tokenize "\"hi\"").1 =
      [Token.mk "STRING" "\"hi\"" 1 1, Token.mk "EOF" "" 1 1] ∧
    ((parseProgram "game g \x7b a = \"hi\" \x7d").1).1 =
      some (.game (some "g") (.block "block" [.assign "a" (.value (.str "hi"))])) :=
  ⟨rfl, rfl, rfl⟩

/-- C5: on `game g { a = 1 @ b = 2 }` the error-collecting lexer
records exactly one lexical diagnostic — for `@`, with 1-based line 1
and column 16 — emits no token whose lexeme is `@`, and the parse
still returns a Game whose block holds both assignments `a = 1` and
`b = 2`, with no syntax diagnostics. -/
theorem C5_thm :
    (GameLexer.tokenize "game g \x7b a = 1 @ b = 2 \x7d").2 =
      [GameLexer.errMsg "@" 1 16] ∧
    ((GameLexer.tokenize "game g \x7b a = 1 @ b = 2 \x7d").1.all
      (fun t => t.lexeme != "@")) = true ∧
    parseProgram "game g \x7b a = 1 @ b = 2 \x7d" =
      ((some (.game (some "g")
          (.block "block"
            [.assign "a" (.value (.int 1)), .assign "b" (.value (.int 2))])), []),
       [GameLexer.errMsg "@" 1 16]) :=
  ⟨rfl, rfl, rfl⟩

/-- C6 (counterexample): an argument list that is never closed before
the token stream runs out does *not* always record the diagnostic that
names the unclosed call.  On `game g { a = f([1` the stream runs out
inside the nested list argument, so the fatal diagnostic is the nested
`expect('RBRACKET')` end-of-input failure; no diagnostic names `f`. -/
theorem C6_counterexample :
    parseProgram "game g \x7b a = f([1" =
      ((none, [Parser.msgExpectEnd "RBRACKET"]), []) ∧
    Parser.msgExpectEnd "RBRACKET" ≠ Parser.msgUnclosed "f" :=
  ⟨rfl, by decide⟩

/-- C6 (amended): when the token stream runs out at the argument-list
level itself, the parse is fatal exactly as claimed — the diagnostic
naming the unclosed call is recorded and `parse` returns a null AST
(`game g { a = f(1`); but when the stream runs out inside a nested
argument value, the parse is still fatal with a null AST while the
recorded diagnostic is the nested construct's end-of-input failure
instead of the unclosed-call message. -/
theorem C6_thm :
    parseProgram "game g \x7b a = f(1" =
      ((none, [Parser.msgUnclosed "f"]), []) ∧
    parseProgram "game g \x7b a = f([1" =
      ((none, [Parser.msgExpectEnd "RBRACKET"]), []) :=
  ⟨rfl, rfl⟩

/-- C7: `game g { tablero { filas = 10 columnas = 5 } }` parses to a
Game whose body contains exactly one nested Block named by the key
`"tablero"`, holding the two Assign statements `filas = 10` and
`columnas = 5` in source order. -/
theorem C7_thm :
    parseProgram "game g \x7b tablero \x7b filas = 10 columnas = 5 \x7d \x7d" =
      ((some (.game (some "g")
          (.block "block"
            [.block "tablero"
              [.assign "filas" (.value (.int 10)),
               .assign "columnas" (.value (.int 5))]])), []), []) := rfl

/-- C8 (counterexample): the payload of a string literal is *not*
always the contents with just the enclosing quotes stripped.  Python's
`strip('"')` removes every leading and trailing quote, so for the
literal `"x\""` — whose contents between the enclosing quotes are
`x\"` — the stored payload is `x\`. -/
theorem C8_counterexample :
    ((parseProgram "game g \x7b a = \"x\\\"\" \x7d").1).1 =
      some (.game (some "g")
        (.block "block" [.assign "a" (.value (.str "x\\"))])) ∧
    pyStripQuotes "\"x\\\"\"" = "x\\" ∧
    ("x\\" : String) ≠ "x\\\"" :=
  ⟨rfl, rfl, by decide⟩

/-- C8 (amended): at a value position a `NUMBER` token yields an
integer payload when its lexeme has no decimal point and a float
payload when it has one; a `BOOLEAN` token yields `true` exactly for
the spelling `true`; and a `STRING` token yields the lexeme with *all*
leading and trailing quote characters removed (`strip('"')`), which
equals the contents-with-enclosing-quotes-stripped except when the
contents end in an escaped quote. -/
theorem C8_thm :
    ∀ (fuel : Nat) (st : PState) (t : Token), Parser.current st = some t →
      ((t.type = "NUMBER" → isNumberLexeme t.lexeme = true →
        Parser.parse_value (fuel + 1) st =
          .ok (.value (if t.lexeme.data.contains '.' then .float (floatOfLexeme t.lexeme)
                       else .int (intOfLexeme t.lexeme)), Parser.advance st)) ∧
       (t.type = "STRING" →
        Parser.parse_value (fuel + 1) st =
          .ok (.value (.str (pyStripQuotes t.lexeme)), Parser.advance st)) ∧
       (t.type = "BOOLEAN" →
        Parser.parse_value (fuel + 1) st =
          .ok (.value (.bool (t.lexeme = "true")), Parser.advance st))) := by
  intro fuel st t hc
  refine ⟨?_, ?_, ?_⟩
  · intro h1 _h2
    simp [Parser.parse_value, hc, h1]
  · intro h1
    simp [Parser.parse_value, hc, h1]
  · intro h1
    simp [Parser.parse_value, hc, h1]

/-- C8 (witness): the amended statement at concrete literal tokens
`3`, `2.5`, `"hi"` and `true`. -/
theorem C8_witness :
    Parser.current ⟨[⟨"NUMBER", "3", 1, 1⟩], 0, []⟩ = some ⟨"NUMBER", "3", 1, 1⟩ ∧
    isNumberLexeme "3" = true ∧
    Parser.parse_value 9 ⟨[⟨"NUMBER", "3", 1, 1⟩], 0, []⟩ =
      .ok (.value (.int 3), Parser.advance ⟨[⟨"NUMBER", "3", 1, 1⟩], 0, []⟩) ∧
    Parser.parse_value 9 ⟨[⟨"NUMBER", "2.5", 1, 1⟩], 0, []⟩ =
      .ok (.value (.float (floatOfLexeme "2.5")),
           Parser.advance ⟨[⟨"NUMBER", "2.5", 1, 1⟩], 0, []⟩) ∧
    Parser.parse_value 9 ⟨[⟨"STRING", "\"hi\"", 1, 1⟩], 0, []⟩ =
      .ok (.value (.str "hi"), Parser.advance ⟨[⟨"STRING", "\"hi\"", 1, 1⟩], 0, []⟩) ∧
    Parser.parse_value 9 ⟨[⟨"BOOLEAN", "true", 1, 1⟩], 0, []⟩ =
      .ok (.value (.bool true), Parser.advance ⟨[⟨"BOOLEAN", "true", 1, 1⟩], 0, []⟩) :=
  ⟨rfl, rfl,
   (C8_thm 8 ⟨[⟨"NUMBER", "3", 1, 1⟩], 0, []⟩ ⟨"NUMBER", "3", 1, 1⟩ rfl).1 rfl rfl,
   (C8_thm 8 ⟨[⟨"NUMBER", "2.5", 1, 1⟩], 0, []⟩ ⟨"NUMBER", "2.5", 1, 1⟩ rfl).1 rfl rfl,
   (C8_thm 8 ⟨[⟨"STRING", "\"hi\"", 1, 1⟩], 0, []⟩ ⟨"STRING", "\"hi\"", 1, 1⟩ rfl).2.1 rfl,
   (C8_thm 8 ⟨[⟨"BOOLEAN", "true", 1, 1⟩], 0, []⟩ ⟨"BOOLEAN", "true", 1, 1⟩ rfl).2.2 rfl⟩

/-- `childList` is the element-wise map of `childJson`. -/
theorem childList_map : ∀ l : List Node, childList l = l.map childJson := by
  intro l
  induction l with
  | nil => simp [childList]
  | cons n rest ih => simp [childList, ih]

/-- `pairDicts` is the pair-wise map of `toDict` over the values. -/
theorem pairDicts_map :
    ∀ ps : List (String × Node),
      pairDicts ps = ps.map (fun p => (p.1, toDict p.2)) := by
  intro ps
  induction ps with
  | nil => simp [pairDicts]
  | cons p rest ih =>
    rcases p with ⟨k, v⟩
    simp [pairDicts, ih]

/-- C9 (counterexample): serialization does not recurse into a child
that is an `Object` node.  `ObjectNode` does not inherit from `Node`,
so the reflection's `isinstance(v, Node)` test fails and the nested
object is left in the output unconverted (`raw`) instead of the flat
key-to-value map the claim describes (computed here by `specToDict`,
the spec-side serializer). -/
theorem C9_counterexample :
    toDict (Node.assign "a" (Node.object [("k", Node.value (PyLit.int 1))])) =
      .dict [("type", .str "AssignNode"), ("key", .str "a"),
             ("value", .raw (.object [("k", .value (.int 1))]))] ∧
    specToDict (Node.assign "a" (Node.object [("k", Node.value (PyLit.int 1))])) =
      .dict [("type", .str "AssignNode"), ("key", .str "a"),
             ("value", .dict [("k", .dict [("type", .str "ValueNode"),
                                           ("value", .int 1)])])] ∧
    PyJson.raw (.object [("k", .value (.int 1))]) ≠
      PyJson.dict [("k", .dict [("type", .str "ValueNode"), ("value", .int 1)])] := by
  refine ⟨by simp [toDict, childJson], by simp [specToDict, specPairs, litJson], ?_⟩
  intro h
  exact PyJson.noConfusion h

/-- C9 (amended): every tagged node serializes to a map holding a
`type` entry naming the variant plus one entry per field, with
sequence-valued fields mapped element-wise; a child that is an
instance of the `Node` base class is recursed into, but a child
`Object` is left unconverted because `ObjectNode` does not subclass
`Node`; only when serialization is invoked on the `Object` itself does
it produce the flat key-to-value map with no `type`/`pairs` wrapper. -/
theorem C9_thm :
    (∀ nm body, toDict (.game nm body) =
      .dict [("type", .str "GameNode"), ("name", optJson nm), ("body", childJson body)]) ∧
    (∀ nm ss, toDict (.block nm ss) =
      .dict [("type", .str "BlockNode"), ("name", .str nm),
             ("statements", .list (ss.map childJson))]) ∧
    (∀ k v, toDict (.assign k v) =
      .dict [("type", .str "AssignNode"), ("key", .str k), ("value", childJson v)]) ∧
    (∀ xs, toDict (.list xs) =
      .dict [("type", .str "ListNode"), ("items", .list (xs.map childJson))]) ∧
    (∀ nm xs, toDict (.func nm xs) =
      .dict [("type", .str "FunctionNode"), ("name", .str nm),
             ("args", .list (xs.map childJson))]) ∧
    (∀ v, toDict (.value v) = .dict [("type", .str "ValueNode"), ("value", litJson v)]) ∧
    (∀ ps, toDict (.object ps) = .dict (ps.map (fun p => (p.1, toDict p.2)))) ∧
    (∀ ps, childJson (.object ps) = .raw (.object ps)) ∧
    (∀ n : Node, (∀ ps, n ≠ .object ps) → childJson n = toDict n) := by
  refine ⟨?_, ?_, ?_, ?_, ?_, ?_, ?_, ?_, ?_⟩
  · intro nm body; simp [toDict]
  · intro nm ss; simp [toDict, childList_map]
  · intro k v; simp [toDict]
  · intro xs; simp [toDict, childList_map]
  · intro nm xs; simp [toDict, childList_map]
  · intro v; simp [toDict]
  · intro ps; simp [toDict, pairDicts_map]
  · intro qs; simp [childJson]
  · intro n hn
    cases n with
    | object ps => exact absurd rfl (hn ps)
    | game nm body => simp [childJson]
    | block nm ss => simp [childJson]
    | assign k v => simp [childJson]
    | list xs => simp [childJson]
    | func nm xs => simp [childJson]
    | value v => simp [childJson]

/-- C9 (witness): the non-`Object` clause of the amended statement at
a concrete child. -/
theorem C9_witness :
    childJson (Node.value (PyLit.int 0)) = toDict (Node.value (PyLit.int 0)) :=
  C9_thm.2.2.2.2.2.2.2.2 (Node.value (PyLit.int 0)) (fun _ h => Node.noConfusion h)

/-- `Parser.parse_game` only ever succeeds with a root of the shape
`GameNode(name, BlockNode("block", ...))`: the body block is created
under the name `"block"` and never renamed. -/
theorem Parser.parse_game_shape :
    ∀ (fuel : Nat) (st : PState) (g : Node) (st' : PState),
      Parser.parse_game fuel st = .ok (g, st') →
      ∃ nm stmts, g = Node.game nm (Node.block "block" stmts) := by
  intro fuel st g st' h
  unfold Parser.parse_game at h
  repeat' split at h
  all_goals try exact Except.noConfusion h
  injection h with h1
  injection h1 with hg hst
  exact ⟨_, _, hg.symm⟩

/-- C10: for every source string that parses successfully, the root
`Game.body` block carries the name `"block"`: `parse_block` creates
every `BlockNode` with that name and only nested named sections are
renamed to their statement key, which never happens to the root
body. -/
theorem C10_thm :
    ∀ (s : String) (g : Node),
      ((parseProgram s).1).1 = some g →
      ∃ nm stmts, g = Node.game nm (Node.block "block" stmts) := by
  intro s g h
  unfold parseProgram at h
  rcases htok : GameLexer.tokenize s with ⟨ts, es⟩
  rw [htok] at h
  simp only at h
  unfold Parser.parse at h
  cases hp : Parser.parse_game (4 * ts.length + 16) ⟨ts, 0, []⟩ with
  | ok p =>
    rcases p with ⟨g', st⟩
    rw [hp] at h
    simp only [Option.some.injEq] at h
    subst h
    exact Parser.parse_game_shape _ _ _ _ hp
  | error st =>
    rw [hp] at h
    simp at h

/-- C10 (witness): the root body of the parsed `game g { }` is the
block named `"block"`. -/
theorem C10_witness :
    ∃ nm stmts,
      Node.game (some "g") (Node.block "block" []) =
        Node.game nm (Node.block "block" stmts) :=
  C10_thm "game g \x7b \x7d" (Node.game (some "g") (Node.block "block" [])) rfl
